import Mathlib

/-!
Verification of the fbdev display backend (`minuitwrp/graphics_fbdev.cpp`).

The development shallowly embeds the backend: pixel memory is modelled as
functions `Nat → Nat` (byte index to byte value), machine `__u32` arithmetic
is `Nat` with explicit `% 2^32` where the C code can wrap, build-time flags
(`RECOVERY_BGRA`) and syscall outcomes (ioctl success) are explicit `Bool`
parameters, and the process-wide mutable globals (`double_buffered`,
`displayed_buffer`, `gr_draw`, the mapped framebuffer) are fields of an
explicit state record threaded through the operations.
-/

namespace FBDev

/-- The pixelflinger format tags assigned by `fbdev_init`. -/
inductive GGLFormat where
  | RGB_565
  | BGRA_8888
  | RGBA_8888
  | RGBX_8888
  deriving DecidableEq, Repr

/-- The fields of `fb_var_screeninfo` that `fbdev_init` reads when picking a
format (plus the green/blue channel fields, which it prints but never
branches on). -/
structure VarScreenInfo where
  bits_per_pixel : Nat
  red_offset : Nat
  red_length : Nat
  green_offset : Nat
  green_length : Nat
  blue_offset : Nat
  blue_length : Nat
  deriving DecidableEq, Repr

/-- The format-normalization chain of `fbdev_init` (graphics_fbdev.cpp
lines 172-192): `bits_per_pixel == 16` gives RGB_565; else `red.offset == 8`
gives BGRA_8888; else `red.offset == 0` gives RGBA_8888; else
`red.offset == 24` gives RGBX_8888; else the fallback tries RGBX_8888 when
`red.length == 8` and RGB_565 otherwise. -/
def fb_format (v : VarScreenInfo) : GGLFormat :=
  if v.bits_per_pixel = 16 then GGLFormat.RGB_565
  else if v.red_offset = 8 then GGLFormat.BGRA_8888
  else if v.red_offset = 0 then GGLFormat.RGBA_8888
  else if v.red_offset = 24 then GGLFormat.RGBX_8888
  else if v.red_length = 8 then GGLFormat.RGBX_8888
  else GGLFormat.RGB_565

/-- 2^32, the modulus of the `__u32` arithmetic used throughout the driver
interface. -/
def M32 : Nat := 2 ^ 32

/-- The double-buffering capacity check of `fbdev_init` (line 216):
`vi.yres * fi.line_length * 2 <= fi.smem_len`, computed in `__u32`
arithmetic, so the product is reduced mod 2^32. -/
def fbdev_double_buffered (yres line_length smem_len : Nat) : Bool :=
  decide ((yres * line_length * 2) % M32 ≤ smem_len)

/-- Pointwise update of a byte memory modelled as `Nat → Nat`. -/
def byte_upd (m : Nat → Nat) (i v : Nat) : Nat → Nat :=
  fun j => if j = i then v else m j

/-- `memcpy(dst + dst_off, src, n)` on byte memories: writes `src 0 .. src
(n-1)` to locations `dst_off .. dst_off + n - 1` of `dst` and leaves every
other location alone. -/
def memcpy (dst : Nat → Nat) (dst_off : Nat) (src : Nat → Nat) (n : Nat) :
    Nat → Nat :=
  match n with
  | 0 => dst
  | Nat.succ k => byte_upd (memcpy dst dst_off src k) (dst_off + k) (src k)

/-- One iteration of the RECOVERY_BGRA loop body of `fbdev_flip`
(lines 254-256): exchange the bytes at `idx` and `idx + 2`. -/
def swap_step (b : Nat → Nat) (idx : Nat) : Nat → Nat :=
  fun i => if i = idx then b (idx + 2) else if i = idx + 2 then b idx else b i

/-- The RECOVERY_BGRA loop of `fbdev_flip` (lines 252-257):
`for (idx = 0; idx < len; idx += 4)` swap bytes `idx` and `idx + 2`.
`fuel` bounds the number of iterations; since `idx` grows by 4 per
iteration, the loop performs at most `len` iterations, so running it with
`fuel = len` (as `bgra_swap` does) never exhausts the fuel before the loop
condition `idx < len` fails. -/
def swap_loop (fuel : Nat) (b : Nat → Nat) (idx len : Nat) : Nat → Nat :=
  match fuel with
  | 0 => b
  | Nat.succ f =>
    if idx < len then swap_loop f (swap_step b idx) (idx + 4) len else b

/-- The in-place channel-swap correction applied to the whole back buffer
(`len = gr_draw->height * gr_draw->row_bytes`). -/
def bgra_swap (b : Nat → Nat) (len : Nat) : Nat → Nat :=
  swap_loop len b 0 len

/-- Closed form of the swap loop's effect, used by the characterization
lemma: inside `[idx, len)` bytes at positions ≡ 0 (mod 4) take the value
two to their right, positions ≡ 2 (mod 4) the value two to their left, and
everything else is untouched. -/
def swap_spec_val (b : Nat → Nat) (idx len i : Nat) : Nat :=
  if idx ≤ i ∧ i < len ∧ i % 4 = 0 then b (i + 2)
  else if idx ≤ i ∧ i < len ∧ i % 4 = 2 then b (i - 2)
  else b i

/-- The process-wide mutable state of the backend after a successful init:
the buffering mode and visible slot, the shared frame geometry of
`gr_framebuffer[0]` / `gr_draw`, the back buffer's bytes and its heap
pointer identity, the mapped framebuffer memory (slot `n` lives at byte
offset `n * height * row_bytes`), and the `fb_var_screeninfo` fields that
`set_displayed_framebuffer` rewrites. -/
structure FBState where
  double_buffered : Bool
  displayed_buffer : Nat
  height : Nat
  row_bytes : Nat
  pixel_bytes : Nat
  draw_data : Nat → Nat
  draw_handle : Nat
  fbmem : Nat → Nat
  yres_virtual : Nat
  yoffset : Nat
  bits_per_pixel : Nat

/-- One frame's footprint in bytes, `height * row_bytes`. -/
def frame_bytes (s : FBState) : Nat := s.height * s.row_bytes

/-- `set_displayed_framebuffer(n)` (lines 87-98): returns early when
`n > 1 || !double_buffered`; otherwise rewrites the virtual height, the
vertical offset and the bits-per-pixel of the variable descriptor, issues
the FBIOPUT_VSCREENINFO ioctl (whose outcome is the explicit `ioctl_ok`
argument), and records `displayed_buffer = n` whether or not the ioctl
succeeded. The second component reports whether an error message was
emitted (`perror` fires exactly when the ioctl fails). -/
def set_displayed_framebuffer (s : FBState) (n : Nat) (ioctl_ok : Bool) :
    FBState × Bool :=
  if n > 1 ∨ s.double_buffered = false then (s, false)
  else
    ({ s with
        yres_virtual := s.height * 2,
        yoffset := n * s.height,
        bits_per_pixel := s.pixel_bytes * 8,
        displayed_buffer := n },
      !ioctl_ok)

/-- The back buffer's contents at copy time inside `fbdev_flip`: swapped in
place when the RECOVERY_BGRA flag is set (which only happens on the
double-buffered path), untouched otherwise. -/
def flip_draw (bgra : Bool) (s : FBState) : Nat → Nat :=
  if bgra then bgra_swap s.draw_data (frame_bytes s) else s.draw_data

/-- `fbdev_flip` (lines 245-269). Double-buffered path: optionally apply
the RECOVERY_BGRA in-place swap to `gr_draw->data`, `memcpy` the full
frame into slot `1 - displayed_buffer` (at byte offset
`(1 - displayed_buffer) * height * row_bytes` of the mapping), then call
`set_displayed_framebuffer(1 - displayed_buffer)`. Single-buffered path:
`memcpy` the full frame into slot 0. Returns `gr_draw` (modelled by its
pointer identity `draw_handle`). -/
def fbdev_flip (bgra : Bool) (ioctl_ok : Bool) (s : FBState) :
    FBState × Nat :=
  if s.double_buffered = true then
    ((set_displayed_framebuffer
        { s with
            draw_data := flip_draw bgra s,
            fbmem := memcpy s.fbmem
              ((1 - s.displayed_buffer) * frame_bytes s)
              (flip_draw bgra s) (frame_bytes s) }
        (1 - s.displayed_buffer) ioctl_ok).1,
      s.draw_handle)
  else
    ({ s with fbmem := memcpy s.fbmem 0 s.draw_data (frame_bytes s) },
      s.draw_handle)

/-- `n` consecutive calls of `fbdev_flip` starting from `s`. -/
def flip_iter (bgra ioctl_ok : Bool) : Nat → FBState → FBState
  | 0, s => s
  | Nat.succ n, s => flip_iter bgra ioctl_ok n (fbdev_flip bgra ioctl_ok s).1

/-- Byte offset, within the mapping, of the front-buffer slot `fbdev_flip`
copies into: the non-visible slot in double-buffered mode, slot 0
otherwise. -/
def target_offset (s : FBState) : Nat :=
  if s.double_buffered = true then (1 - s.displayed_buffer) * frame_bytes s
  else 0

/-- Outcomes of the fallible steps of `fbdev_init`, in program order:
`open("/dev/graphics/fb0")`, the FBIOGET_FSCREENINFO and
FBIOGET_VSCREENINFO ioctls, `mmap`, `malloc(sizeof(GRSurface))` and
`malloc(height * row_bytes)` for `gr_draw`. -/
structure InitEnv where
  open_ok : Bool
  fscreeninfo_ok : Bool
  vscreeninfo_ok : Bool
  mmap_ok : Bool
  malloc_surface_ok : Bool
  malloc_data_ok : Bool

/-- Which of `fbdev_init`'s four resources are held at a given point: the
device file descriptor, the memory mapping, and the two heap allocations
backing `gr_draw`. -/
structure Resources where
  fd_open : Bool
  mapped : Bool
  surface_alloc : Bool
  data_alloc : Bool
  deriving DecidableEq, Repr

/-- No resource held. -/
def no_resources : Resources := ⟨false, false, false, false⟩

/-- What `fbdev_init` hands back: whether it returned a surface (vs NULL),
the resources still held at return, and whether an error was reported. -/
structure InitResult where
  success : Bool
  resources : Resources
  error_reported : Bool
  deriving DecidableEq, Repr

/-- `close(fd)`. -/
def close_fd (r : Resources) : Resources := { r with fd_open := false }

/-- `munmap(bits, fi.smem_len)`. -/
def unmap_fb (r : Resources) : Resources := { r with mapped := false }

/-- `free(gr_draw)`. -/
def free_surface (r : Resources) : Resources :=
  { r with surface_alloc := false }

/-- Resource bookkeeping of `fbdev_init` (lines 100-243), mirroring its
control flow: open failure returns at once; either ioctl failure closes the
fd and returns; mmap failure closes the fd and returns; failure of the
GRSurface malloc closes the fd, unmaps and returns; failure of the
pixel-memory malloc closes the fd, frees the GRSurface and unmaps; on
success all four resources are held. `perror` is called on exactly the
failure paths. -/
def fbdev_init_model (e : InitEnv) : InitResult :=
  if e.open_ok = false then
    { success := false, resources := no_resources, error_reported := true }
  else
    if e.fscreeninfo_ok = false then
      { success := false,
        resources := close_fd { no_resources with fd_open := true },
        error_reported := true }
    else if e.vscreeninfo_ok = false then
      { success := false,
        resources := close_fd { no_resources with fd_open := true },
        error_reported := true }
    else if e.mmap_ok = false then
      { success := false,
        resources := close_fd { no_resources with fd_open := true },
        error_reported := true }
    else
      if e.malloc_surface_ok = false then
        { success := false,
          resources :=
            unmap_fb (close_fd ⟨true, true, false, false⟩),
          error_reported := true }
      else
        if e.malloc_data_ok = false then
          { success := false,
            resources :=
              unmap_fb (free_surface (close_fd ⟨true, true, true, false⟩)),
            error_reported := true }
        else
          { success := true,
            resources := ⟨true, true, true, true⟩,
            error_reported := false }

/-- Sample back-buffer contents with pairwise distinct bytes. -/
def sample_draw : Nat → Nat := fun i => (i + 1) * 10

/-- A concrete double-buffered post-init state with a 1 x 4-byte frame,
slot 0 visible. -/
def db_state : FBState where
  double_buffered := true
  displayed_buffer := 0
  height := 1
  row_bytes := 4
  pixel_bytes := 4
  draw_data := sample_draw
  draw_handle := 7
  fbmem := fun _ => 0
  yres_virtual := 2
  yoffset := 0
  bits_per_pixel := 32

/-- The same concrete state in single-buffered mode. -/
def sb_state : FBState :=
  { db_state with double_buffered := false }

end FBDev

namespace FBDev

/-- C4: Format normalization is a pure function of (bits-per-pixel,
red offset, red length) — green/blue fields never influence it — and the
first-match decision order is: bpp = 16 → RGB565; else red offset = 8 →
BGRA; else red offset = 0 → RGBA; else red offset = 24 → RGBX. -/
theorem fb_format_decision_order (v w : VarScreenInfo) :
    (v.bits_per_pixel = w.bits_per_pixel → v.red_offset = w.red_offset →
      v.red_length = w.red_length → fb_format v = fb_format w) ∧
    (v.bits_per_pixel = 16 → fb_format v = GGLFormat.RGB_565) ∧
    (v.bits_per_pixel ≠ 16 → v.red_offset = 8 →
      fb_format v = GGLFormat.BGRA_8888) ∧
    (v.bits_per_pixel ≠ 16 → v.red_offset ≠ 8 → v.red_offset = 0 →
      fb_format v = GGLFormat.RGBA_8888) ∧
    (v.bits_per_pixel ≠ 16 → v.red_offset ≠ 8 → v.red_offset ≠ 0 →
      v.red_offset = 24 → fb_format v = GGLFormat.RGBX_8888) := by
  unfold fb_format
  refine ⟨fun h1 h2 h3 => by rw [h1, h2, h3], ?_, ?_, ?_, ?_⟩ <;>
    intros <;> simp_all

/-- Witness for C4 at the spec's own example: bpp = 32, red offset 8 gives
BGRA_8888 independent of green/blue offsets. -/
theorem fb_format_decision_order_witness :
    fb_format ⟨32, 8, 8, 16, 8, 0, 8⟩ = GGLFormat.BGRA_8888 :=
  (fb_format_decision_order ⟨32, 8, 8, 16, 8, 0, 8⟩ ⟨32, 8, 8, 16, 8, 0, 8⟩).2.2.1
    (by decide) (by decide)

/-- C1 counterexample: on a descriptor with bpp ≠ 16 and red offset 16
(none of 0/8/24) but red length 8, the fallback yields RGBX_8888, which is
case 4's tag, NOT case 3's tag RGBA_8888 (the tag produced when
red offset = 0). -/
theorem fb_format_fallback_not_case3 :
    fb_format ⟨32, 16, 8, 8, 8, 0, 8⟩ ≠ fb_format ⟨32, 0, 8, 8, 8, 16, 8⟩ ∧
    fb_format ⟨32, 0, 8, 8, 8, 16, 8⟩ = GGLFormat.RGBA_8888 ∧
    fb_format ⟨32, 16, 8, 8, 8, 0, 8⟩ = GGLFormat.RGBX_8888 := by
  decide

/-- C1 (amended): with bpp ≠ 16 and red offset outside {0, 8, 24}, the
fallback yields case 4's tag RGBX_8888 when red length = 8 (not case 3's
RGBA_8888), and case 1's tag RGB_565 otherwise. -/
theorem fb_format_fallback (v : VarScreenInfo)
    (h16 : v.bits_per_pixel ≠ 16) (h8 : v.red_offset ≠ 8)
    (h0 : v.red_offset ≠ 0) (h24 : v.red_offset ≠ 24) :
    (v.red_length = 8 → fb_format v = GGLFormat.RGBX_8888) ∧
    (v.red_length ≠ 8 → fb_format v = GGLFormat.RGB_565) := by
  unfold fb_format
  constructor <;> intro hl <;> simp_all

/-- Witness for the amended C1 at red offset 16, red length 8. -/
theorem fb_format_fallback_witness :
    fb_format ⟨32, 16, 8, 8, 8, 0, 8⟩ = GGLFormat.RGBX_8888 :=
  (fb_format_fallback ⟨32, 16, 8, 8, 8, 0, 8⟩ (by decide) (by decide)
    (by decide) (by decide)).1 rfl

/-- C5 counterexample: the capacity check runs in 32-bit arithmetic, so at
yres = 65536, line stride = 65536, mapped length 0 the product
2^33 wraps to 0 and the code selects DOUBLE buffering even though
yres * stride * 2 ≤ smem_len fails mathematically. -/
theorem fbdev_double_buffered_overflow :
    fbdev_double_buffered 65536 65536 0 = true ∧
    ¬ (65536 * 65536 * 2 ≤ 0) := by
  constructor
  · decide
  · omega

/-- C5 (amended): double buffering is selected iff
`(yres * stride * 2) mod 2^32 ≤ total_mapped_length` (the comparison the
`__u32` code performs); whenever the product does not overflow 32 bits this
is exactly the mathematical comparison, with equality sufficient. -/
theorem fbdev_double_buffered_iff (yres line_length smem_len : Nat) :
    (fbdev_double_buffered yres line_length smem_len = true ↔
      (yres * line_length * 2) % M32 ≤ smem_len) ∧
    (yres * line_length * 2 < M32 →
      (fbdev_double_buffered yres line_length smem_len = true ↔
        yres * line_length * 2 ≤ smem_len)) := by
  constructor
  · exact decide_eq_true_iff
  · intro hov
    unfold fbdev_double_buffered
    rw [decide_eq_true_iff, Nat.mod_eq_of_lt hov]

/-- Witness for the amended C5 at the exact-fit boundary: 4 * 8 * 2 = 64
equals the mapped length, and double buffering is selected. -/
theorem fbdev_double_buffered_iff_witness :
    4 * 8 * 2 < M32 ∧ fbdev_double_buffered 4 8 64 = true :=
  ⟨by decide, ((fbdev_double_buffered_iff 4 8 64).2 (by decide)).2 (by decide)⟩

theorem memcpy_outside (dst : Nat → Nat) (dst_off : Nat) (src : Nat → Nat)
    (n j : Nat) (h : j < dst_off ∨ dst_off + n ≤ j) :
    memcpy dst dst_off src n j = dst j := by
  induction n with
  | zero => rfl
  | succ k ih =>
    show byte_upd (memcpy dst dst_off src k) (dst_off + k) (src k) j = dst j
    unfold byte_upd
    rw [if_neg (by omega)]
    exact ih (by omega)

theorem memcpy_inside (dst : Nat → Nat) (dst_off : Nat) (src : Nat → Nat)
    (n j : Nat) (h : j < n) :
    memcpy dst dst_off src n (dst_off + j) = src j := by
  induction n with
  | zero => omega
  | succ k ih =>
    show byte_upd (memcpy dst dst_off src k) (dst_off + k) (src k)
        (dst_off + j) = src j
    unfold byte_upd
    by_cases hj : j = k
    · subst hj
      rw [if_pos rfl]
    · rw [if_neg (by omega)]
      exact ih (by omega)

theorem swap_loop_spec (fuel : Nat) : ∀ (b : Nat → Nat) (idx len : Nat),
    len - idx ≤ 4 * fuel → idx % 4 = 0 → len % 4 = 0 → ∀ i,
    swap_loop fuel b idx len i = swap_spec_val b idx len i := by
  induction fuel with
  | zero =>
    intro b idx len hf h4 hl i
    show b i = swap_spec_val b idx len i
    unfold swap_spec_val
    rw [if_neg (by omega), if_neg (by omega)]
  | succ f ih =>
    intro b idx len hf h4 hl i
    show (if idx < len then swap_loop f (swap_step b idx) (idx + 4) len
          else b) i = swap_spec_val b idx len i
    by_cases hlt : idx < len
    · rw [if_pos hlt]
      rw [ih (swap_step b idx) (idx + 4) len (by omega) (by omega) hl i]
      unfold swap_spec_val swap_step
      split_ifs <;> first | rfl | omega | (congr 1 <;> first | rfl | omega)
    · rw [if_neg hlt]
      unfold swap_spec_val
      rw [if_neg (by omega), if_neg (by omega)]

theorem bgra_swap_spec (b : Nat → Nat) (len : Nat) (hl : len % 4 = 0)
    (i : Nat) : bgra_swap b len i = swap_spec_val b 0 len i :=
  swap_loop_spec len b 0 len (by omega) (by omega) hl i

/-- C9: on a buffer whose length is a multiple of 4, the channel-swap
correction exchanges byte 0 and byte 2 of every 4-byte group, leaves bytes
1 and 3 of every group untouched, and applying it twice is the identity. -/
theorem bgra_swap_groups_involutive (b : Nat → Nat) (len : Nat)
    (hl : len % 4 = 0) :
    (∀ k, 4 * k + 3 < len →
      bgra_swap b len (4 * k) = b (4 * k + 2) ∧
      bgra_swap b len (4 * k + 2) = b (4 * k) ∧
      bgra_swap b len (4 * k + 1) = b (4 * k + 1) ∧
      bgra_swap b len (4 * k + 3) = b (4 * k + 3)) ∧
    (∀ i, bgra_swap (bgra_swap b len) len i = b i) := by
  constructor
  · intro k hk
    refine ⟨?_, ?_, ?_, ?_⟩ <;>
      rw [bgra_swap_spec b len hl] <;>
      unfold swap_spec_val <;>
      split_ifs <;> first | rfl | omega | (congr 1 <;> first | rfl | omega)
  · intro i
    rw [bgra_swap_spec (bgra_swap b len) len hl i]
    unfold swap_spec_val
    split_ifs with h1 h2
    · rw [bgra_swap_spec b len hl (i + 2)]
      unfold swap_spec_val
      split_ifs <;> first | (congr 1 <;> first | rfl | omega) | omega
    · rw [bgra_swap_spec b len hl (i - 2)]
      unfold swap_spec_val
      split_ifs <;> first | (congr 1 <;> first | rfl | omega) | omega
    · rw [bgra_swap_spec b len hl i]
      unfold swap_spec_val
      split_ifs <;> first | rfl | omega

/-- Witness for C9 on a concrete 4-byte buffer. -/
theorem bgra_swap_groups_involutive_witness :
    bgra_swap sample_draw 4 (4 * 0) = sample_draw (4 * 0 + 2) ∧
    bgra_swap (bgra_swap sample_draw 4) 4 1 = sample_draw 1 :=
  ⟨((bgra_swap_groups_involutive sample_draw 4 (by decide)).1 0
      (by decide)).1,
    (bgra_swap_groups_involutive sample_draw 4 (by decide)).2 1⟩

/-- C7: `set_displayed_framebuffer` is a no-op (state unchanged, nothing
reported) unless double buffering is active and the requested slot is at
most 1; when it acts it rewrites the virtual-height/offset descriptor
fields and records the requested slot as displayed whether or not the
page-flip ioctl succeeded, reporting the failure exactly when the ioctl
failed. -/
theorem set_displayed_framebuffer_spec (s : FBState) (n : Nat) (ok : Bool) :
    ((n > 1 ∨ s.double_buffered = false) →
      (set_displayed_framebuffer s n ok).1 = s ∧
      (set_displayed_framebuffer s n ok).2 = false) ∧
    (n ≤ 1 → s.double_buffered = true →
      (set_displayed_framebuffer s n ok).1.displayed_buffer = n ∧
      (set_displayed_framebuffer s n ok).1.yres_virtual = s.height * 2 ∧
      (set_displayed_framebuffer s n ok).1.yoffset = n * s.height ∧
      (set_displayed_framebuffer s n ok).2 = !ok) := by
  constructor
  · intro h
    unfold set_displayed_framebuffer
    rw [if_pos h]
    exact ⟨rfl, rfl⟩
  · intro h1 h2
    have hc : ¬(n > 1 ∨ s.double_buffered = false) := by
      rintro (hgt | hfalse)
      · omega
      · rw [h2] at hfalse
        simp at hfalse
    unfold set_displayed_framebuffer
    rw [if_neg hc]
    exact ⟨rfl, rfl, rfl, rfl⟩

/-- Witness for C7: single-buffered slot-1 request is a no-op; in the
double-buffered state a slot-1 request with a failing ioctl still records
slot 1 and reports the failure. -/
theorem set_displayed_framebuffer_spec_witness :
    (set_displayed_framebuffer sb_state 1 true).1 = sb_state ∧
    (set_displayed_framebuffer db_state 1 false).1.displayed_buffer = 1 ∧
    (set_displayed_framebuffer db_state 1 false).2 = true :=
  ⟨((set_displayed_framebuffer_spec sb_state 1 true).1 (Or.inr rfl)).1,
    ((set_displayed_framebuffer_spec db_state 1 false).2 (by decide) rfl).1,
    ((set_displayed_framebuffer_spec db_state 1 false).2 (by decide)
      rfl).2.2.2⟩

theorem set_displayed_framebuffer_frame (s : FBState) (n : Nat) (ok : Bool) :
    (set_displayed_framebuffer s n ok).1.double_buffered =
      s.double_buffered ∧
    (set_displayed_framebuffer s n ok).1.height = s.height ∧
    (set_displayed_framebuffer s n ok).1.row_bytes = s.row_bytes ∧
    (set_displayed_framebuffer s n ok).1.draw_data = s.draw_data ∧
    (set_displayed_framebuffer s n ok).1.draw_handle = s.draw_handle ∧
    (set_displayed_framebuffer s n ok).1.fbmem = s.fbmem := by
  unfold set_displayed_framebuffer
  split_ifs <;> exact ⟨rfl, rfl, rfl, rfl, rfl, rfl⟩

theorem fbdev_flip_displayed (bgra ok : Bool) (s : FBState)
    (hd : s.double_buffered = true) :
    (fbdev_flip bgra ok s).1.double_buffered = true ∧
    (fbdev_flip bgra ok s).1.displayed_buffer = 1 - s.displayed_buffer := by
  unfold fbdev_flip
  rw [if_pos hd]
  unfold set_displayed_framebuffer
  split_ifs with h
  · exfalso
    rcases h with h | h
    · omega
    · have hx : s.double_buffered = false := h
      rw [hd] at hx
      simp at hx
  · exact ⟨hd, rfl⟩

theorem flip_iter_displayed (bgra : Bool) : ∀ (n : Nat) (s : FBState),
    s.double_buffered = true → s.displayed_buffer ≤ 1 →
    (flip_iter bgra true n s).double_buffered = true ∧
    (flip_iter bgra true n s).displayed_buffer =
      (s.displayed_buffer + n) % 2 := by
  intro n
  induction n with
  | zero =>
    intro s hd hdb
    refine ⟨hd, ?_⟩
    show s.displayed_buffer = (s.displayed_buffer + 0) % 2
    omega
  | succ k ih =>
    intro s hd hdb
    obtain ⟨h1, h2⟩ := fbdev_flip_displayed bgra true s hd
    obtain ⟨h3, h4⟩ := ih (fbdev_flip bgra true s).1 h1 (by omega)
    refine ⟨h3, ?_⟩
    show (flip_iter bgra true k (fbdev_flip bgra true s).1).displayed_buffer
        = _
    rw [h4, h2]
    omega

/-- C6: starting from a double-buffered state with slot 0 visible and the
page-flip ioctl always succeeding, the visible slot after `n` commits is
`n % 2`, and consecutive commits never leave the slot unchanged — the
sequence is strictly 0, 1, 0, 1, ... -/
theorem fbdev_flip_alternates (bgra : Bool) (n : Nat) (s : FBState)
    (hd : s.double_buffered = true) (h0 : s.displayed_buffer = 0) :
    (flip_iter bgra true n s).displayed_buffer = n % 2 ∧
    (flip_iter bgra true (n + 1) s).displayed_buffer ≠
      (flip_iter bgra true n s).displayed_buffer := by
  obtain ⟨-, h2⟩ := flip_iter_displayed bgra n s hd (by omega)
  obtain ⟨-, h4⟩ := flip_iter_displayed bgra (n + 1) s hd (by omega)
  constructor
  · rw [h2, h0]
    omega
  · rw [h4, h2, h0]
    omega

/-- Witness for C6 after two commits of the concrete double-buffered
state. -/
theorem fbdev_flip_alternates_witness :
    (flip_iter false true 2 db_state).displayed_buffer = 2 % 2 ∧
    (flip_iter false true (2 + 1) db_state).displayed_buffer ≠
      (flip_iter false true 2 db_state).displayed_buffer :=
  fbdev_flip_alternates false 2 db_state rfl rfl

/-- C3 counterexample: with the RECOVERY_BGRA flag enabled in the
double-buffered state, commit mutates the back buffer in place (byte 0
takes byte 2's old value), so the back buffer does not hold the bytes the
painter last wrote. -/
theorem fbdev_flip_mutates_draw_cex :
    (fbdev_flip true true db_state).1.draw_data 0 ≠
      db_state.draw_data 0 := by
  decide

/-- C3 (amended): commit always returns the drawing surface handle
unchanged and never replaces it; the back buffer's pixel contents are left
untouched by commit except when the channel-correction flag is enabled in
double-buffered mode, where the documented in-place byte swap occurs. -/
theorem fbdev_flip_returns_same_draw (bgra ok : Bool) (s : FBState) :
    (fbdev_flip bgra ok s).2 = s.draw_handle ∧
    (fbdev_flip bgra ok s).1.draw_handle = s.draw_handle ∧
    ((bgra = false ∨ s.double_buffered = false) →
      ∀ i, (fbdev_flip bgra ok s).1.draw_data i = s.draw_data i) := by
  unfold fbdev_flip
  split_ifs with hd
  · refine ⟨rfl, ?_, ?_⟩
    · exact (set_displayed_framebuffer_frame _ _ _).2.2.2.2.1
    · intro h i
      rcases h with hb | hds
      · subst hb
        exact congrFun ((set_displayed_framebuffer_frame _ _ _).2.2.2.1) i
      · rw [hd] at hds
        simp at hds
  · exact ⟨rfl, rfl, fun _ _ => rfl⟩

/-- Witness for the amended C3: without the flag the back buffer is
untouched and the same handle comes back. -/
theorem fbdev_flip_returns_same_draw_witness :
    (fbdev_flip false true db_state).2 = db_state.draw_handle ∧
    (fbdev_flip false true db_state).1.draw_data 5 =
      db_state.draw_data 5 :=
  ⟨(fbdev_flip_returns_same_draw false true db_state).1,
    (fbdev_flip_returns_same_draw false true db_state).2.2 (Or.inl rfl) 5⟩

/-- C2 counterexample: in the single-buffered state with the
channel-correction flag enabled, commit performs no swap — byte 0 of the
back buffer keeps its value (10) instead of receiving byte 2's value (30),
and the front buffer receives the unswapped byte. -/
theorem fbdev_flip_no_swap_single_cex :
    (fbdev_flip true true sb_state).1.draw_data 0 ≠ sb_state.draw_data 2 ∧
    (fbdev_flip true true sb_state).1.fbmem 0 = sb_state.draw_data 0 := by
  decide

/-- C2 (amended): with the channel-correction flag enabled, a commit in
DOUBLE-buffered mode swaps byte 0 and byte 2 of every 4-byte pixel of the
back buffer in place (bytes 1 and 3 untouched) and copies the swapped
buffer into the front slot; in single-buffered mode no swap is
performed. -/
theorem fbdev_flip_bgra_behavior (ok : Bool) (s : FBState)
    (h4 : frame_bytes s % 4 = 0) :
    (s.double_buffered = true →
      (∀ k, 4 * k + 3 < frame_bytes s →
        (fbdev_flip true ok s).1.draw_data (4 * k) =
          s.draw_data (4 * k + 2) ∧
        (fbdev_flip true ok s).1.draw_data (4 * k + 2) =
          s.draw_data (4 * k) ∧
        (fbdev_flip true ok s).1.draw_data (4 * k + 1) =
          s.draw_data (4 * k + 1) ∧
        (fbdev_flip true ok s).1.draw_data (4 * k + 3) =
          s.draw_data (4 * k + 3)) ∧
      (∀ j, j < frame_bytes s →
        (fbdev_flip true ok s).1.fbmem
            ((1 - s.displayed_buffer) * frame_bytes s + j) =
          (fbdev_flip true ok s).1.draw_data j)) ∧
    (s.double_buffered = false →
      ∀ i, (fbdev_flip true ok s).1.draw_data i = s.draw_data i) := by
  constructor
  · intro hd
    have hdr : ∀ i, (fbdev_flip true ok s).1.draw_data i =
        bgra_swap s.draw_data (frame_bytes s) i := by
      intro i
      unfold fbdev_flip
      rw [if_pos hd]
      exact congrFun ((set_displayed_framebuffer_frame _ _ _).2.2.2.1) i
    have hfb : ∀ i, (fbdev_flip true ok s).1.fbmem i =
        memcpy s.fbmem ((1 - s.displayed_buffer) * frame_bytes s)
          (flip_draw true s) (frame_bytes s) i := by
      intro i
      unfold fbdev_flip
      rw [if_pos hd]
      exact congrFun ((set_displayed_framebuffer_frame _ _ _).2.2.2.2.2) i
    constructor
    · intro k hk
      refine ⟨?_, ?_, ?_, ?_⟩ <;>
        rw [hdr, bgra_swap_spec s.draw_data (frame_bytes s) h4] <;>
        unfold swap_spec_val <;>
        split_ifs <;>
        first | rfl | omega | (congr 1 <;> first | rfl | omega)
    · intro j hj
      rw [hfb ((1 - s.displayed_buffer) * frame_bytes s + j),
        memcpy_inside _ _ _ _ _ hj, hdr j]
      rfl
  · intro hd i
    unfold fbdev_flip
    rw [if_neg (by rw [hd]; simp)]

/-- Witness for the amended C2 on the concrete double-buffered state. -/
theorem fbdev_flip_bgra_behavior_witness :
    (fbdev_flip true true db_state).1.draw_data (4 * 0) =
      db_state.draw_data (4 * 0 + 2) ∧
    (fbdev_flip true true db_state).1.fbmem
        ((1 - db_state.displayed_buffer) * frame_bytes db_state + 0) =
      (fbdev_flip true true db_state).1.draw_data 0 :=
  ⟨(((fbdev_flip_bgra_behavior true db_state rfl).1 rfl).1 0
      (by decide)).1,
    ((fbdev_flip_bgra_behavior true db_state rfl).1 rfl).2 0 (by decide)⟩

/-- C8: commit writes exactly the `height * row_bytes` bytes of the
targeted front slot — every mapped byte outside that slot is unchanged —
the slot receives exactly the back buffer's bytes as they stand at copy
time, and the back buffer itself is never written outside its own
`height * row_bytes` extent (the channel swap, when enabled, requires the
frame size to be a multiple of 4, which holds for the 4-byte-pixel formats
it is used with). -/
theorem fbdev_flip_copy_exact (bgra ok : Bool) (s : FBState)
    (h4 : bgra = true → frame_bytes s % 4 = 0) :
    (∀ i, i < target_offset s ∨ target_offset s + frame_bytes s ≤ i →
      (fbdev_flip bgra ok s).1.fbmem i = s.fbmem i) ∧
    (∀ j, j < frame_bytes s →
      (fbdev_flip bgra ok s).1.fbmem (target_offset s + j) =
        (fbdev_flip bgra ok s).1.draw_data j) ∧
    (∀ i, frame_bytes s ≤ i →
      (fbdev_flip bgra ok s).1.draw_data i = s.draw_data i) := by
  by_cases hd : s.double_buffered = true
  · have htgt : target_offset s =
        (1 - s.displayed_buffer) * frame_bytes s := by
      unfold target_offset
      rw [if_pos hd]
    have hdr : ∀ i, (fbdev_flip bgra ok s).1.draw_data i =
        flip_draw bgra s i := by
      intro i
      unfold fbdev_flip
      rw [if_pos hd]
      exact congrFun ((set_displayed_framebuffer_frame _ _ _).2.2.2.1) i
    have hfb : ∀ i, (fbdev_flip bgra ok s).1.fbmem i =
        memcpy s.fbmem ((1 - s.displayed_buffer) * frame_bytes s)
          (flip_draw bgra s) (frame_bytes s) i := by
      intro i
      unfold fbdev_flip
      rw [if_pos hd]
      exact congrFun ((set_displayed_framebuffer_frame _ _ _).2.2.2.2.2) i
    refine ⟨?_, ?_, ?_⟩
    · intro i hi
      rw [htgt] at hi
      rw [hfb i]
      exact memcpy_outside _ _ _ _ _ hi
    · intro j hj
      rw [htgt, hfb ((1 - s.displayed_buffer) * frame_bytes s + j),
        memcpy_inside _ _ _ _ _ hj, hdr j]
    · intro i hi
      rw [hdr i]
      cases hb : bgra
      · rfl
      · show bgra_swap s.draw_data (frame_bytes s) i = s.draw_data i
        rw [bgra_swap_spec s.draw_data (frame_bytes s) (h4 hb) i]
        unfold swap_spec_val
        rw [if_neg (by omega), if_neg (by omega)]
  · have htgt : target_offset s = 0 := by
      unfold target_offset
      rw [if_neg hd]
    have hfb : ∀ i, (fbdev_flip bgra ok s).1.fbmem i =
        memcpy s.fbmem 0 s.draw_data (frame_bytes s) i := by
      intro i
      unfold fbdev_flip
      rw [if_neg hd]
    refine ⟨?_, ?_, ?_⟩
    · intro i hi
      rw [htgt] at hi
      rw [hfb i]
      exact memcpy_outside _ _ _ _ _ hi
    · intro j hj
      rw [htgt, hfb (0 + j), memcpy_inside _ _ _ _ _ hj]
      unfold fbdev_flip
      rw [if_neg hd]
    · intro i hi
      unfold fbdev_flip
      rw [if_neg hd]

/-- Witness for C8 on the concrete double-buffered state with the swap
flag enabled: a byte beyond the targeted slot is untouched, the slot holds
the back buffer's byte, and the back buffer is unchanged past its
extent. -/
theorem fbdev_flip_copy_exact_witness :
    (fbdev_flip true true db_state).1.fbmem 8 = db_state.fbmem 8 ∧
    (fbdev_flip true true db_state).1.fbmem (target_offset db_state + 1) =
      (fbdev_flip true true db_state).1.draw_data 1 ∧
    (fbdev_flip true true db_state).1.draw_data 4 =
      db_state.draw_data 4 :=
  ⟨(fbdev_flip_copy_exact true true db_state (by decide)).1 8 (by decide),
    (fbdev_flip_copy_exact true true db_state (by decide)).2.1 1
      (by decide),
    (fbdev_flip_copy_exact true true db_state (by decide)).2.2 4
      (by decide)⟩

/-- C10: `fbdev_init` fails exactly when one of its six fallible steps
fails, and on every failure path it reports the error, returns NULL (no
partial success), and holds no resource at return — the device handle, the
mapping and both heap allocations acquired earlier in the same call have
all been released. -/
theorem fbdev_init_no_leak (o fi vi mm ms md : Bool) :
    ((fbdev_init_model ⟨o, fi, vi, mm, ms, md⟩).success = false ↔
      (o = false ∨ fi = false ∨ vi = false ∨ mm = false ∨ ms = false ∨
        md = false)) ∧
    ((fbdev_init_model ⟨o, fi, vi, mm, ms, md⟩).success = false →
      (fbdev_init_model ⟨o, fi, vi, mm, ms, md⟩).resources =
        no_resources ∧
      (fbdev_init_model ⟨o, fi, vi, mm, ms, md⟩).error_reported = true) := by
  revert o fi vi mm ms md
  decide

/-- Witness for C10 on the path where mmap fails: nothing leaks and the
error is reported. -/
theorem fbdev_init_no_leak_witness :
    (fbdev_init_model ⟨true, true, true, false, true, true⟩).resources =
      no_resources ∧
    (fbdev_init_model ⟨true, true, true, false, true, true⟩).error_reported
      = true :=
  (fbdev_init_no_leak true true true false true true).2 (by decide)

end FBDev
